import Mathlib

/-!
Verification of the MCS (T.125) connection layer of grdp, `protocol/t125/mcs.go`.

The file embeds the source shallowly:

* Constants, the one-byte PDU header codec, `DomainParameters`, `ConnectInitial`,
  `ConnectResponse` and the `MCSClient` handshake handlers are translated from
  `mcs.go` line by line.  Go `int`/`uint8`/`uint16` values become `Nat` with
  explicit `% 256` / `% 65536` where Go arithmetic wraps.
* The BER and PER primitive encoders and the GCC capability-block codec live in
  sibling packages of the repository that are consumed here as codec libraries;
  those primitives are modelled from the specification (each such definition
  carries a `Modelled from the spec:` doc comment).
* The event-driven session is embedded as explicit state passing: every handler
  maps a session state and an inbound buffer to a new state plus the list of
  observable `Event`s it produces (transport writes, error emissions, the
  terminal connect emission, listener registrations, and a marker for the Go
  runtime panic raised by an out-of-range slice index).
-/

namespace T125

/-! ## Constants (mcs.go lines 24-47) -/

def MCS_TYPE_CONNECT_INITIAL : Nat := 0x65

def MCS_TYPE_CONNECT_RESPONSE : Nat := 0x66

def ERECT_DOMAIN_REQUEST : Nat := 1

def DISCONNECT_PROVIDER_ULTIMATUM : Nat := 8

def ATTACH_USER_REQUEST : Nat := 10

def ATTACH_USER_CONFIRM : Nat := 11

def CHANNEL_JOIN_REQUEST : Nat := 14

def CHANNEL_JOIN_CONFIRM : Nat := 15

def SEND_DATA_REQUEST : Nat := 25

def SEND_DATA_INDICATION : Nat := 26

def MCS_GLOBAL_CHANNEL : Nat := 1003

def MCS_USERCHANNEL_BASE : Nat := 1001

/-- The eight enumerated domain-PDU opcodes of mcs.go lines 31-40. -/
def domainPDUOpcodes : List Nat :=
  [ERECT_DOMAIN_REQUEST, DISCONNECT_PROVIDER_ULTIMATUM, ATTACH_USER_REQUEST,
   ATTACH_USER_CONFIRM, CHANNEL_JOIN_REQUEST, CHANNEL_JOIN_CONFIRM,
   SEND_DATA_REQUEST, SEND_DATA_INDICATION]

/-! ## PDU header codec (mcs.go lines 55-61)

`writeMCSPDUHeader` writes `(uint8(mcsPdu)<<2)|options` as one byte; the shift
is performed in `uint8`, hence the inner `% 256`.  `readMCSPDUHeader` compares
the received byte shifted right by 2 with `uint8(mcsPdu)`. -/

def writeMCSPDUHeader (mcsPdu : Nat) (options : Nat) : Nat :=
  (mcsPdu % 256 * 4 % 256) ||| (options % 256)

def readMCSPDUHeader (options : Nat) (mcsPdu : Nat) : Bool :=
  options / 4 == mcsPdu % 256

/-! ## BER and PER primitives, modelled from the spec

The `ber` and `per` packages are outside the embedded source; the spec consumes
them as codec libraries with well-defined wire formats (spec section 6). -/

/-- Modelled from the spec: minimal big-endian base-256 content octets of a
natural number (the body of a BER integer / long-form length).  Structural
recursion on a fuel argument so that the function evaluates by `rfl`. -/
def natToBytesBEAux : Nat → Nat → List Nat
  | 0, n => [n % 256]
  | fuel + 1, n => if n < 256 then [n] else natToBytesBEAux fuel (n / 256) ++ [n % 256]

/-- Modelled from the spec: minimal big-endian byte representation of `n`. -/
def natToBytesBE (n : Nat) : List Nat :=
  natToBytesBEAux n n

/-- Big-endian value of a byte list (decoder counterpart of `natToBytesBE`). -/
def natFromBytesBE (l : List Nat) : Nat :=
  l.foldl (fun a b => a * 256 + b) 0

/-- Modelled from the spec: BER definite length field — short form below 128,
otherwise `0x80 + k` followed by the `k` big-endian content octets. -/
def berWriteLength (n : Nat) : List Nat :=
  if n < 128 then [n] else (0x80 + (natToBytesBE n).length) :: natToBytesBE n

/-- Decoder for a BER definite length field, for the round-trip statement. -/
def berLengthDecode : List Nat → Option Nat
  | [] => none
  | b :: rest =>
    if b < 128 then if rest = [] then some b else none
    else if rest.length = b - 128 then some (natFromBytesBE rest) else none

/-- Modelled from the spec: BER integer primitive — universal tag `0x02`, a BER
length field, then the big-endian content octets. -/
def berWriteInteger (n : Nat) : List Nat :=
  0x02 :: (berWriteLength (natToBytesBE n).length ++ natToBytesBE n)

/-- Modelled from the spec: BER octet-string primitive — universal tag `0x04`,
a BER length field, then the raw octets. -/
def berWriteOctetstring (s : List Nat) : List Nat :=
  0x04 :: (berWriteLength s.length ++ s)

/-- Modelled from the spec: BER boolean primitive — universal tag `0x01`,
length 1, content `0xff` for true and `0x00` for false. -/
def berWriteBoolean (b : Bool) : List Nat :=
  [0x01, 0x01, if b then 0xff else 0x00]

/-- Modelled from the spec: an encoded DomainParameters sub-sequence wrapper —
constructed sequence tag `0x30`, a BER length field, then the encoded data. -/
def berWriteEncodedDomainParams (data : List Nat) : List Nat :=
  0x30 :: (berWriteLength data.length ++ data)

/-- Modelled from the spec: outer application tag wrapper — one tag selector
byte plus a BER length field (spec section 6), preceding the message body. -/
def berWriteApplicationTag (tag : Nat) (len : Nat) : List Nat :=
  tag % 256 :: berWriteLength len

/-- Modelled from the spec: PER integer — a one-byte length prefix followed by
the big-endian content octets (only ever used with value 0 by this layer). -/
def perWriteInteger (n : Nat) : List Nat :=
  if n < 256 then [1, n] else [2, n / 256 % 256, n % 256]

/-- Modelled from the spec: PER enumerated value — a single byte; `none` when
the buffer is exhausted (the Go reader returns an error then). -/
def perReadEnumerates : List Nat → Option (Nat × List Nat)
  | [] => none
  | b :: rest => some (b % 256, rest)

/-- Modelled from the spec: PER 16-bit integer — two big-endian bytes.  The
caller in mcs.go ignores the read error, and a short read leaves the Go
`uint16` at its zero value, hence the total return type. -/
def perReadInteger16 : List Nat → Nat
  | b0 :: b1 :: _ => b0 % 256 * 256 + b1 % 256
  | _ => 0

/-! ## DomainParameters (mcs.go lines 63-101) -/

structure DomainParameters where
  MaxChannelIds : Nat
  MaxUserIds : Nat
  MaxTokenIds : Nat
  NumPriorities : Nat
  MinThoughput : Nat
  MaxHeight : Nat
  MaxMCSPDUsize : Nat
  ProtocolVersion : Nat
deriving DecidableEq, Repr

def NewDomainParameters (maxChannelIds maxUserIds maxTokenIds numPriorities
    minThoughput maxHeight maxMCSPDUsize protocolVersion : Nat) : DomainParameters :=
  ⟨maxChannelIds, maxUserIds, maxTokenIds, numPriorities, minThoughput,
   maxHeight, maxMCSPDUsize, protocolVersion⟩

/-- Translation of `DomainParameters.BER` (mcs.go lines 90-101): eight BER
integers written into a buffer in order, four of them literal constants. -/
def DomainParameters.BER (d : DomainParameters) : List Nat :=
  berWriteInteger d.MaxChannelIds ++ berWriteInteger d.MaxUserIds ++
  berWriteInteger d.MaxTokenIds ++ berWriteInteger 1 ++ berWriteInteger 0 ++
  berWriteInteger 1 ++ berWriteInteger d.MaxMCSPDUsize ++ berWriteInteger 2

/-! ## ConnectInitial and ConnectResponse (mcs.go lines 108-162) -/

structure ConnectInitial where
  CallingDomainSelector : List Nat
  CalledDomainSelector : List Nat
  UpwardFlag : Bool
  TargetParameters : DomainParameters
  MinimumParameters : DomainParameters
  MaximumParameters : DomainParameters
  UserData : List Nat
deriving DecidableEq, Repr

def NewConnectInitial (userData : List Nat) : ConnectInitial :=
  ⟨[0x1], [0x1], true,
   NewDomainParameters 34 2 0 1 0 1 0xffff 2,
   NewDomainParameters 1 1 1 1 0 1 0x420 2,
   NewDomainParameters 0xffff 0xfc17 0xffff 1 0 1 0xffff 2,
   userData⟩

/-- Translation of `ConnectInitial.BER` (mcs.go lines 128-138). -/
def ConnectInitial.BER (c : ConnectInitial) : List Nat :=
  berWriteOctetstring c.CallingDomainSelector ++
  berWriteOctetstring c.CalledDomainSelector ++
  berWriteBoolean c.UpwardFlag ++
  berWriteEncodedDomainParams c.TargetParameters.BER ++
  berWriteEncodedDomainParams c.MinimumParameters.BER ++
  berWriteEncodedDomainParams c.MaximumParameters.BER ++
  berWriteOctetstring c.UserData

structure ConnectResponse where
  result : Nat
  calledConnectId : Nat
  domainParameters : DomainParameters
  userData : List Nat
deriving DecidableEq, Repr

def NewConnectResponse (userData : List Nat) : ConnectResponse :=
  ⟨0, 0, NewDomainParameters 22 3 0 1 0 1 0xfff8 2, userData⟩

/-- Translation of `ReadConnectResponse` (mcs.go lines 159-162).  The source
is a `// todo` placeholder: it ignores the input entirely and returns a fresh
default `ConnectResponse` with empty user data and a `nil` error. -/
def ReadConnectResponse (s : List Nat) : Except String ConnectResponse :=
  Except.ok (NewConnectResponse [])

/-! ## Session state (mcs.go lines 164-229)

`MCS` seeds the channel registry with the global channel; `MCSClient` adds the
join cursor `channelsConnected`, the assigned `userId` and the three decoded
server capability-block slots (recorded here as presence flags, their decoded
contents belonging to the external `gcc` package). -/

structure MCSChannelInfo where
  id : Nat
  name : String
deriving DecidableEq, Repr

structure MCSClientState where
  channels : List MCSChannelInfo
  channelsConnected : Nat
  userId : Nat
  serverCoreData : Bool
  serverNetworkData : Bool
  serverSecurityData : Bool
deriving DecidableEq, Repr

/-- Translation of `NewMCS` / `NewMCSClient` (mcs.go lines 177-229): the
registry starts as `[{1003, "global"}]`, and Go zero values give
`channelsConnected = 0`, `userId = 0` and `nil` server-data pointers. -/
def initialMCSClientState : MCSClientState :=
  ⟨[⟨MCS_GLOBAL_CHANNEL, "global"⟩], 0, 0, false, false, false⟩

/-- Which registered handler a one-shot data subscription names. -/
inductive HandlerId where
  | recvConnectResponseH
  | recvAttachUserConfirmH
  | recvChannelJoinConfirmH
deriving DecidableEq, Repr

/-- Decoded GCC capability blocks, the output of the external
`gcc.ReadConferenceCreateResponse` codec (modelled from the spec as tagged
capability records).  The `switch v.(type)` in mcs.go distinguishes the Go
dynamic type of each record, so the model carries it: the three bare
constructors are the value types `gcc.ServerXData`, the three `Ptr`
constructors are the pointer types `*gcc.ServerXData`, and `other` is any
further tag. -/
inductive GCCBlock where
  | serverCore
  | serverSecurity
  | serverNetwork
  | serverCorePtr
  | serverSecurityPtr
  | serverNetworkPtr
  | other (tag : Nat)
deriving DecidableEq, Repr

/-- The distinguishable error conditions the session can emit.  Each
constructor corresponds to one `errors.New` site in mcs.go: `badHeader` is
"NODE_RDP_PROTOCOL_T125_MCS_BAD_HEADER" (line 326), `serverRejectUser` is the
reject message of line 336, `unhandledBlock` is the "unhandle server gcc
block" error of line 285 (its message interpolates the offending block,
carried here), and `readError` is a propagated reader error. -/
inductive ErrKind where
  | badHeader
  | serverRejectUser
  | unhandledBlock (b : GCCBlock)
  | readError
deriving DecidableEq, Repr

/-- Observable effects of one handler invocation, in program order.
`panicOutOfRange` is the Go runtime panic of an out-of-bounds slice index;
`panicInterfaceConversion` is the Go runtime panic of a failed single-result
interface type assertion, carrying the offending block. -/
inductive Event where
  | write (data : List Nat)
  | emitError (k : ErrKind)
  | emitConnect (userId : Nat) (channels : List MCSChannelInfo)
  | onceData (h : HandlerId)
  | onData
  | channelJoinRequested (channelId : Nat)
  | panicOutOfRange (idx len : Nat)
  | panicInterfaceConversion (b : GCCBlock)
deriving DecidableEq, Repr

def Event.isWrite : Event → Bool
  | .write _ => true
  | _ => false

def Event.isConnectEmit : Event → Bool
  | .emitConnect _ _ => true
  | _ => false

def Event.isErrorEmit : Event → Bool
  | .emitError _ => true
  | _ => false

def Event.isJoinRequested : Event → Bool
  | .channelJoinRequested _ => true
  | _ => false

/-! ## Handshake handlers (mcs.go lines 231-375) -/

/-- Translation of the encoding steps of `MCSClient.connect` (mcs.go lines
241-248): BER-encode a fresh `ConnectInitial` around the GCC
conference-create-request bytes, then prepend the application tag `0x65` with
the exact encoded body length. -/
def connectInitialWire (ccReq : List Nat) : List Nat :=
  let connectInitialBerEncoded := (NewConnectInitial ccReq).BER
  berWriteApplicationTag MCS_TYPE_CONNECT_INITIAL connectInitialBerEncoded.length ++
    connectInitialBerEncoded

/-- Translation of `MCSClient.connect` (mcs.go lines 231-256), success path of
the transport write: send the wrapped ConnectInitial, then register a one-shot
listener for `recvConnectResponse`.  The GCC-encoded user data `ccReq` is the
output of the external `gcc.MakeConferenceCreateRequest`, taken as a
parameter. -/
def clientConnect (ccReq : List Nat) : List Event :=
  [.write (connectInitialWire ccReq), .onceData .recvConnectResponseH]

/-- Translation of `MCSClient.sendErectDomainRequest` (mcs.go lines 301-307):
header byte for opcode 1, then two PER-encoded zero integers. -/
def sendErectDomainRequest : List Event :=
  [.write ([writeMCSPDUHeader ERECT_DOMAIN_REQUEST 0] ++
    perWriteInteger 0 ++ perWriteInteger 0)]

/-- Translation of `MCSClient.sendAttachUserRequest` (mcs.go lines 309-313):
the header byte alone. -/
def sendAttachUserRequest : List Event :=
  [.write [writeMCSPDUHeader ATTACH_USER_REQUEST 0]]

/-- Translation of `MCSClient.sendChannelJoinRequest` (mcs.go lines 367-369).
The source is a placeholder that only logs: it performs NO transport write.
The trace records the invocation and the requested channel id. -/
def sendChannelJoinRequest (channelId : Nat) : List Event :=
  [.channelJoinRequested channelId]

/-- Translation of the block loop and tail of `MCSClient.recvConnectResponse`
(mcs.go lines 270-298).  The `switch v.(type)` cases name the VALUE types
`gcc.ServerXData`, while each case body performs the single-result POINTER
assertion `v.(*gcc.ServerXData)`: when a block's dynamic type is the value
type, its case matches and the pointer assertion fails — a Go runtime panic
before any field is populated; a pointer-typed block matches no case and falls
to `default`, as does every other tag, emitting the "unhandle server gcc
block" error and returning at once.  No branch ever populates a server-data
slot or reaches a second iteration, so only an empty block list proceeds to
the Erect Domain Request, the Attach User Request and the one-shot listener
for the Attach User Confirm. -/
def recvConnectResponseLoop (st : MCSClientState) : List GCCBlock → MCSClientState × List Event
  | [] => (st, sendErectDomainRequest ++ sendAttachUserRequest ++
      [.onceData .recvAttachUserConfirmH])
  | b :: _rest =>
    match b with
    | .serverSecurity => (st, [.panicInterfaceConversion .serverSecurity])
    | .serverCore => (st, [.panicInterfaceConversion .serverCore])
    | .serverNetwork => (st, [.panicInterfaceConversion .serverNetwork])
    | _ => (st, [.emitError (.unhandledBlock b)])

/-- Translation of `MCSClient.recvConnectResponse` (mcs.go lines 258-299).
`serverSettings` is the output of the external `gcc.ReadConferenceCreateResponse`
codec applied to the decoded user data, taken as a parameter. -/
def recvConnectResponse (st : MCSClientState) (s : List Nat)
    (serverSettings : List GCCBlock) : MCSClientState × List Event :=
  match ReadConnectResponse s with
  | .error e => (st, [.emitError .readError])
  | .ok _cResp => recvConnectResponseLoop st serverSettings

/-- Translation of `MCSClient.connectChannels` (mcs.go lines 348-365).  When
the join cursor equals the registry length the persistent data handler is
installed and the terminal connect notification fires; execution then falls
through unconditionally to `c.channels[c.channelsConnected]`, which in that
very case indexes one past the end of the slice — a Go runtime panic, recorded
as `panicOutOfRange`. -/
def connectChannels (st : MCSClientState) : MCSClientState × List Event :=
  let pre : List Event :=
    if st.channelsConnected = st.channels.length then
      [.onData, .emitConnect st.userId st.channels]
    else []
  match st.channels[st.channelsConnected]? with
  | some ch =>
    ({ st with channelsConnected := st.channelsConnected + 1 },
     pre ++ sendChannelJoinRequest ch.id ++ [.onceData .recvChannelJoinConfirmH])
  | none => (st, pre ++ [.panicOutOfRange st.channelsConnected st.channels.length])

/-- Translation of `MCSClient.recvAttachUserConfirm` (mcs.go lines 315-346):
read the header byte (error on empty buffer), verify opcode 11, read the PER
enumerated result (non-zero rejects the user), read the PER 16-bit assigned
id with its error ignored, add the user-channel base offset in `uint16`
arithmetic, record the user id, append the user channel, and continue with
`connectChannels`. -/
def recvAttachUserConfirm (st : MCSClientState) (s : List Nat) :
    MCSClientState × List Event :=
  match s with
  | [] => (st, [.emitError .readError])
  | option :: rest =>
    if readMCSPDUHeader option ATTACH_USER_CONFIRM then
      match perReadEnumerates rest with
      | none => (st, [.emitError .readError])
      | some (e, rest2) =>
        if e ≠ 0 then (st, [.emitError .serverRejectUser])
        else
          let userId := (perReadInteger16 rest2 + MCS_USERCHANNEL_BASE) % 65536
          connectChannels
            { st with userId := userId,
                      channels := st.channels ++ [⟨userId, "user"⟩] }
    else (st, [.emitError .badHeader])

/-- Translation of `MCSClient.recvChannelJoinConfirm` (mcs.go lines 371-375).
The source is a placeholder: it ignores the received buffer entirely — no
header check, no echoed channel id comparison — and calls `connectChannels`. -/
def recvChannelJoinConfirm (st : MCSClientState) (s : List Nat) :
    MCSClientState × List Event :=
  connectChannels st

/-! ## Concrete session run

The end-to-end scenario of the spec: Connect Initial → Connect Response →
Erect Domain → Attach User (assigned id 5, result 0) → join/confirm 1003 →
join/confirm 1006.  Each state is the output of the previous handler, and each
buffer is delivered to the handler named by the one-shot listener the previous
step registered. -/

/-- Attach User Confirm: header byte `11<<2 = 44`, PER enumerated result 0,
PER 16-bit assigned id 5. -/
def attachUserConfirmBuf : List Nat := [44, 0, 0, 5]

/-- Channel Join Confirm echoing channel id 1003 (header `15<<2 = 60`, user id
5, channel id 1003 = 0x03EB); the handler ignores the content. -/
def joinConfirm1003Buf : List Nat := [60, 0, 5, 3, 235]

/-- Channel Join Confirm echoing channel id 1006 (0x03EE); ignored likewise. -/
def joinConfirm1006Buf : List Nat := [60, 0, 5, 3, 238]

/-- Channel Join Confirm echoing channel id 9999 (0x270F), which differs from
every requested channel id; the handler ignores the content. -/
def mismatchedJoinConfirmBuf : List Nat := [60, 0, 5, 39, 15]

/-- State after the Connect Response (its stubbed decode yields empty user
data, hence no capability blocks). -/
def stAfterConnectResponse : MCSClientState :=
  (recvConnectResponse initialMCSClientState [] []).1

/-- State after the Attach User Confirm: user id 1006 recorded, user channel
appended, first join request issued (`channelsConnected = 1`). -/
def stAfterAttach : MCSClientState :=
  (recvAttachUserConfirm stAfterConnectResponse attachUserConfirmBuf).1

/-- State after the first Channel Join Confirm: second join request issued
(`channelsConnected = 2 = ` registry length). -/
def stAfterJoin1 : MCSClientState :=
  (recvChannelJoinConfirm stAfterAttach joinConfirm1003Buf).1

/-- Full observable trace of the end-to-end scenario. -/
def runC2Trace : List Event :=
  clientConnect [] ++
  (recvConnectResponse initialMCSClientState [] []).2 ++
  (recvAttachUserConfirm stAfterConnectResponse attachUserConfirmBuf).2 ++
  (recvChannelJoinConfirm stAfterAttach joinConfirm1003Buf).2 ++
  (recvChannelJoinConfirm stAfterJoin1 joinConfirm1006Buf).2

/-! ## Helper lemmas -/

theorem natFromBytesBE_append (l : List Nat) (b : Nat) :
    natFromBytesBE (l ++ [b]) = natFromBytesBE l * 256 + b := by
  simp [natFromBytesBE, List.foldl_append]

theorem natFromBytesBE_natToBytesBEAux (fuel : Nat) :
    ∀ n, n ≤ fuel → natFromBytesBE (natToBytesBEAux fuel n) = n := by
  induction fuel with
  | zero =>
    intro n h
    have hn : n = 0 := Nat.le_zero.mp h
    subst hn
    rfl
  | succ fuel ih =>
    intro n h
    unfold natToBytesBEAux
    split
    · simp [natFromBytesBE]
    · rename_i h256
      rw [natFromBytesBE_append, ih (n / 256) (by omega)]
      omega

theorem natFromBytesBE_natToBytesBE (n : Nat) :
    natFromBytesBE (natToBytesBE n) = n :=
  natFromBytesBE_natToBytesBEAux n n (Nat.le_refl n)

theorem berLengthDecode_berWriteLength (n : Nat) :
    berLengthDecode (berWriteLength n) = some n := by
  unfold berWriteLength
  split
  · simp [berLengthDecode, *]
  · have h1 : ¬ (0x80 + (natToBytesBE n).length < 128) := by omega
    have h2 : 0x80 + (natToBytesBE n).length - 128 = (natToBytesBE n).length := by omega
    simp [berLengthDecode, h1, h2, natFromBytesBE_natToBytesBE]

theorem berWriteApplicationTag_connect_initial (n : Nat) (B : List Nat) :
    berWriteApplicationTag 0x65 n ++ B = 0x65 :: (berWriteLength n ++ B) := rfl

theorem connectChannels_preserve (st : MCSClientState) :
    (connectChannels st).1.userId = st.userId ∧
    (connectChannels st).1.channels = st.channels := by
  unfold connectChannels
  rcases hx : st.channels[st.channelsConnected]? with _ | ch <;> simp [hx]

/-! ## Claim theorems -/

/-- C1: the claim requires `ReadConnectResponse` to verify the outer 0x66
application tag and reject mismatches with a malformed-connect-response error.
The source function is a placeholder: on the input `[0x00]`, whose outer tag
is not 0x66, it still returns a default `ConnectResponse` with empty user data
and no error — and it does so for every input byte stream. -/
theorem readConnectResponse_never_rejects :
    ReadConnectResponse [0x00] = Except.ok (NewConnectResponse []) ∧
    ∀ s : List Nat, ReadConnectResponse s = Except.ok (NewConnectResponse []) :=
  ⟨rfl, fun _ => rfl⟩

/-- C2: in the end-to-end run the session does emit exactly one connect
notification carrying user id 1006 and the 2-element registry, but the two
channel-join requests produce no transport writes (the only writes are the
Connect Initial, Erect Domain and Attach User buffers), and the run ends with
an out-of-range index panic immediately after the terminal notification
instead of quiescing. -/
theorem session_run_stub_trace :
    runC2Trace.filter Event.isConnectEmit =
      [.emitConnect 1006 [⟨1003, "global"⟩, ⟨1006, "user"⟩]] ∧
    runC2Trace.filter Event.isJoinRequested =
      [.channelJoinRequested 1003, .channelJoinRequested 1006] ∧
    runC2Trace.filter Event.isWrite =
      [.write (connectInitialWire []),
       .write [4, 1, 0, 1, 0],
       .write [40]] ∧
    runC2Trace.getLast? = some (.panicOutOfRange 2 2) :=
  ⟨rfl, rfl, rfl, rfl⟩

/-- C3: the claim requires a Channel Join Confirm whose echoed channel id
differs from the most recently requested id (1003 in state `stAfterAttach`) to
yield a ChannelJoinMismatch error and halt further joins.  The source handler
ignores the buffer entirely: on a confirm echoing channel id 9999 it emits no
error and proceeds to request the next join, and its result is identical for
every input buffer. -/
theorem recvChannelJoinConfirm_ignores_echoed_id :
    (recvChannelJoinConfirm stAfterAttach mismatchedJoinConfirmBuf).2 =
      [.channelJoinRequested 1006, .onceData .recvChannelJoinConfirmH] ∧
    ((recvChannelJoinConfirm stAfterAttach mismatchedJoinConfirmBuf).2.filter
      Event.isErrorEmit) = [] ∧
    ∀ s : List Nat, recvChannelJoinConfirm stAfterAttach s =
      recvChannelJoinConfirm stAfterAttach mismatchedJoinConfirmBuf :=
  ⟨by decide, by decide, fun _ => rfl⟩

/-- C4: an Attach User Confirm with header opcode 11 (any 2-bit options),
enumerated result 0 and PER-encoded assigned id 5, processed in a session
whose registry is the seeded `[{1003, "global"}]`, records user id
`5 + 1001 = 1006` and leaves the registry exactly
`[{1003, "global"}, {1006, "user"}]` in that order. -/
theorem recvAttachUserConfirm_registers_user (st : MCSClientState) (opts : Nat)
    (hopts : opts < 4)
    (hch : st.channels = [⟨MCS_GLOBAL_CHANNEL, "global"⟩]) :
    (recvAttachUserConfirm st ((44 + opts) :: [0, 0, 5])).1.userId = 1006 ∧
    (recvAttachUserConfirm st ((44 + opts) :: [0, 0, 5])).1.channels =
      [⟨1003, "global"⟩, ⟨1006, "user"⟩] := by
  have h4 : (44 + opts) / 4 = 11 := by omega
  have hhdr : readMCSPDUHeader (44 + opts) ATTACH_USER_CONFIRM = true := by
    simp [readMCSPDUHeader, ATTACH_USER_CONFIRM, h4]
  have hstep : recvAttachUserConfirm st ((44 + opts) :: [0, 0, 5]) =
      connectChannels { st with userId := 1006, channels := st.channels ++ [⟨1006, "user"⟩] } := by
    simp [recvAttachUserConfirm, hhdr, perReadEnumerates, perReadInteger16,
      MCS_USERCHANNEL_BASE]
  rw [hstep]
  obtain ⟨h1, h2⟩ := connectChannels_preserve
    { st with userId := 1006, channels := st.channels ++ [⟨1006, "user"⟩] }
  rw [h1, h2, hch]
  exact ⟨rfl, by simp [MCS_GLOBAL_CHANNEL]⟩

theorem recvAttachUserConfirm_registers_user_witness :
    (0 < 4 ∧ initialMCSClientState.channels = [⟨MCS_GLOBAL_CHANNEL, "global"⟩]) ∧
    ((recvAttachUserConfirm initialMCSClientState ((44 + 0) :: [0, 0, 5])).1.userId = 1006 ∧
     (recvAttachUserConfirm initialMCSClientState ((44 + 0) :: [0, 0, 5])).1.channels =
       [⟨1003, "global"⟩, ⟨1006, "user"⟩]) :=
  ⟨⟨by decide, by decide⟩,
   recvAttachUserConfirm_registers_user initialMCSClientState 0 (by decide) (by decide)⟩

/-- C5: an Attach User Confirm whose first byte has top 6 bits different from
opcode 11 makes the session emit the bad-header error with the state
unchanged, and the result does not depend on the bytes following the header
byte — the PER enumerated result field is never read. -/
theorem recvAttachUserConfirm_bad_header (st : MCSClientState) (b : Nat)
    (rest : List Nat) (hb : b < 256) (hmis : b / 4 ≠ ATTACH_USER_CONFIRM) :
    recvAttachUserConfirm st (b :: rest) = (st, [.emitError .badHeader]) := by
  have hhdr : readMCSPDUHeader b ATTACH_USER_CONFIRM = false := by
    have hne : b / 4 ≠ ATTACH_USER_CONFIRM % 256 := by
      simpa [ATTACH_USER_CONFIRM] using hmis
    simpa [readMCSPDUHeader] using beq_eq_false_iff_ne.mpr hne
  simp [recvAttachUserConfirm, hhdr]

theorem recvAttachUserConfirm_bad_header_witness :
    (40 < 256 ∧ 40 / 4 ≠ ATTACH_USER_CONFIRM) ∧
    recvAttachUserConfirm initialMCSClientState (40 :: [0, 0, 5]) =
      (initialMCSClientState, [.emitError .badHeader]) :=
  ⟨⟨by decide, by decide⟩,
   recvAttachUserConfirm_bad_header initialMCSClientState 40 [0, 0, 5]
     (by decide) (by decide)⟩

/-- C6: the claim requires a recognized prefix of capability blocks to be
classified into the server-data fields before an unrecognized block aborts
with exactly one unhandled-block error.  The type switch of mcs.go lines
270-290 cannot do this: its cases name value types while their bodies assert
pointer types, so a value-typed ServerCoreData block preceding an
unrecognized block panics on the failed interface conversion before any field
is populated; a pointer-typed ServerCoreData block instead falls to `default`
and triggers the unhandled-block error for the RECOGNIZED block itself; and
for every nonempty block list whatsoever the handler leaves the session state
untouched — no classification is ever recorded. -/
theorem recvConnectResponse_cannot_classify :
    recvConnectResponse initialMCSClientState [] [.serverCore, .other 77] =
      (initialMCSClientState, [.panicInterfaceConversion .serverCore]) ∧
    recvConnectResponse initialMCSClientState [] [.serverCorePtr, .other 77] =
      (initialMCSClientState, [.emitError (.unhandledBlock .serverCorePtr)]) ∧
    ∀ (st : MCSClientState) (s : List Nat) (b : GCCBlock) (rest : List GCCBlock),
      (recvConnectResponse st s (b :: rest)).1 = st :=
  ⟨rfl, rfl, fun st _s b _rest => by cases b <;> rfl⟩

/-- C7: for every user-data payload the encoded ConnectInitial begins with the
application tag byte 0x65 followed by the length field of the exact body
length (the length field decodes back to that length), and the body is the
ordered concatenation of the two selector octet-strings, the upward-flag
boolean, the three wrapped DomainParameters sub-sequences (target, minimum,
maximum) and the user-data octet-string. -/
theorem connect_initial_wire_format (ud : List Nat) :
    connectInitialWire ud =
      0x65 :: (berWriteLength (NewConnectInitial ud).BER.length ++
        (NewConnectInitial ud).BER) ∧
    berLengthDecode (berWriteLength (NewConnectInitial ud).BER.length) =
      some (NewConnectInitial ud).BER.length ∧
    (NewConnectInitial ud).BER =
      berWriteOctetstring [0x1] ++ berWriteOctetstring [0x1] ++
      berWriteBoolean true ++
      berWriteEncodedDomainParams (NewDomainParameters 34 2 0 1 0 1 0xffff 2).BER ++
      berWriteEncodedDomainParams (NewDomainParameters 1 1 1 1 0 1 0x420 2).BER ++
      berWriteEncodedDomainParams
        (NewDomainParameters 0xffff 0xfc17 0xffff 1 0 1 0xffff 2).BER ++
      berWriteOctetstring ud := by
  refine ⟨?_, berLengthDecode_berWriteLength _, rfl⟩
  calc connectInitialWire ud
      = berWriteApplicationTag 0x65 (NewConnectInitial ud).BER.length ++
          (NewConnectInitial ud).BER := rfl
    _ = 0x65 :: (berWriteLength (NewConnectInitial ud).BER.length ++
          (NewConnectInitial ud).BER) :=
        berWriteApplicationTag_connect_initial _ _

/-- C8: the BER serialization of any DomainParameters value is the sequence of
8 BER integers `maxChannelIds, maxUserIds, maxTokenIds, 1, 0, 1,
maxMCSPDUsize, 2`, and it is invariant under any change of the
`NumPriorities`, `MinThoughput`, `MaxHeight` and `ProtocolVersion` fields. -/
theorem domainParameters_BER_fixed_fields (d : DomainParameters) :
    d.BER = berWriteInteger d.MaxChannelIds ++ berWriteInteger d.MaxUserIds ++
      berWriteInteger d.MaxTokenIds ++ berWriteInteger 1 ++ berWriteInteger 0 ++
      berWriteInteger 1 ++ berWriteInteger d.MaxMCSPDUsize ++ berWriteInteger 2 ∧
    ∀ np mt mh pv, DomainParameters.BER
        { d with NumPriorities := np, MinThoughput := mt, MaxHeight := mh,
                 ProtocolVersion := pv } = d.BER :=
  ⟨rfl, fun _ _ _ _ => rfl⟩

/-- C9: for every enumerated domain-PDU opcode and every 2-bit options value,
encoding the header byte as `(opcode << 2) | options` and verifying it against
the same opcode succeeds, and every byte whose top 6 bits differ from the
expected opcode fails verification. -/
theorem pdu_header_roundtrip (op opts b : Nat) (hop : op ∈ domainPDUOpcodes)
    (hopts : opts < 4) (hb : b < 256) :
    readMCSPDUHeader (writeMCSPDUHeader op opts) op = true ∧
    (b / 4 ≠ op → readMCSPDUHeader b op = false) := by
  constructor
  · fin_cases hop <;> interval_cases opts <;> decide
  · intro hne
    have h1 : op < 256 := by fin_cases hop <;> decide
    have h2 : b / 4 ≠ op % 256 := by rw [Nat.mod_eq_of_lt h1]; exact hne
    exact beq_eq_false_iff_ne.mpr h2

theorem pdu_header_roundtrip_witness :
    (14 ∈ domainPDUOpcodes ∧ 3 < 4 ∧ 57 < 256) ∧
    (readMCSPDUHeader (writeMCSPDUHeader 14 3) 14 = true ∧
     (57 / 4 ≠ 14 → readMCSPDUHeader 57 14 = false)) :=
  ⟨⟨by decide, by decide, by decide⟩,
   pdu_header_roundtrip 14 3 57 (by decide) (by decide) (by decide)⟩

/-- C10: the claim asserts that whenever `connectChannels` runs, the index
`channelsConnected` is strictly below the registry length.  In the reachable
terminal state `stAfterJoin1` (after both channels are joined) the cursor
equals the registry length, the indexed access resolves to `none`, and the
invocation ends in the out-of-range panic right after emitting the terminal
connect notification. -/
theorem connectChannels_terminal_index_out_of_bounds :
    stAfterJoin1.channelsConnected = stAfterJoin1.channels.length ∧
    stAfterJoin1.channels[stAfterJoin1.channelsConnected]? = none ∧
    (connectChannels stAfterJoin1).2 =
      [.onData, .emitConnect 1006 [⟨1003, "global"⟩, ⟨1006, "user"⟩],
       .panicOutOfRange 2 2] := by
  decide

end T125
